import Mathlib

/-!
# Verification of the CYOA quality-control core

Shallow embedding of the decision logic of the `cyoa-game-server` repository:
the boolean response parser, the difficulty engine, the refusal
detector/corrector, the judge pipeline, and the session fingerprinting,
together with theorems settling the specification claims about them.

External effects are made explicit: the text-generation backend is an oracle
returning `Except String String` (an `error` models a raised exception), the
random source is a stream `ℕ → ℚ` with an explicit cursor, and the Python
`eval` of a difficulty expression is an oracle returning `Except String ℚ`.
-/

/-! ## Boolean response parser (`game/judge_pipeline.py`, `_parse_boolean_response`) -/

/-- ASCII whitespace, as removed by Python `str.strip()`. -/
def isSpaceChar (c : Char) : Bool :=
  c == ' ' || c == '\t' || c == '\n' || c == '\r' || c == '\x0b' || c == '\x0c'

/-- Python `str.strip()`: leading and trailing whitespace removed. -/
def strStrip (s : String) : String :=
  String.mk (((s.data.dropWhile isSpaceChar).reverse.dropWhile isSpaceChar).reverse)

/-- Python `str.upper()` on ASCII letters. -/
def pyUpperChar (c : Char) : Char :=
  if 'a' ≤ c ∧ c ≤ 'z' then Char.ofNat (c.toNat - 32) else c

/-- Python `str.lower()` on ASCII letters. -/
def pyLowerChar (c : Char) : Char :=
  if 'A' ≤ c ∧ c ≤ 'Z' then Char.ofNat (c.toNat + 32) else c

def strUpper (s : String) : String :=
  String.mk (s.data.map pyUpperChar)

def strLower (s : String) : String :=
  String.mk (s.data.map pyLowerChar)

/-- `pat` occurs at the start of `l`. -/
def prefixChars : List Char → List Char → Bool
  | [], _ => true
  | _ :: _, [] => false
  | p :: ps, c :: cs => p == c && prefixChars ps cs

/-- `pat` occurs somewhere in `l`. -/
def subOccurs (pat : List Char) : List Char → Bool
  | [] => prefixChars pat []
  | c :: cs => prefixChars pat (c :: cs) || subOccurs pat cs

/-- Substring test: Python `pat in s`. -/
def strContains (s pat : String) : Bool :=
  subOccurs pat.data s.data

/-- Python `s.startswith(pat)`. -/
def strStarts (s pat : String) : Bool :=
  prefixChars pat.data s.data

/-- `_parse_boolean_response(text, default)`: empty text gives the default;
otherwise the stripped upper-cased text is scanned for positive tokens first,
then negative tokens, else the default. -/
def parse_boolean_response (text : String) (dflt : Bool) : Bool :=
  if text = "" then dflt
  else
    let upper := strUpper (strStrip text)
    if [ "YES", "TRUE", "PASS" ].any (fun x => strContains upper x) then true
    else if [ "NO", "FALSE", "FAIL" ].any (fun x => strContains upper x) then false
    else dflt

/-! ## Difficulty engine (`game/models.py` `DifficultyProfile.evaluate`,
`game/difficulty_utils.py` `should_trigger_death`) -/

namespace DifficultyProfile

/-- `DifficultyProfile.evaluate(current_turn, max_turns)`: the configured
expression is evaluated by an interpreter oracle `evalExpr` (Python `eval`);
a raised exception yields `0.0`, a value is clamped to `[0, 1]`. -/
def evaluate (evalExpr : String → ℤ → ℤ → Except String ℚ)
    (function : String) (current_turn max_turns : ℤ) : ℚ :=
  match evalExpr function current_turn max_turns with
  | Except.error _ => 0
  | Except.ok result => max 0 (min 1 result)

end DifficultyProfile

/-- `GameSession` game-state fields (`game/models.py`). -/
structure GameSession where
  session_id : String
  turn_number : ℤ
  max_turns : ℤ
  game_over : Bool
  last_death_roll : Option ℚ
  last_death_probability : Option ℚ
  deriving Repr, DecidableEq

/-- `should_trigger_death(turn_number, max_turns, difficulty_profile, game_session)`.
The random source is the stream `rng` with cursor `k`; drawing a roll advances
the cursor. Returns the decision, the (possibly updated) session and the new
cursor. -/
def should_trigger_death (evalExpr : String → ℤ → ℤ → Except String ℚ)
    (turn_number max_turns : ℤ) (difficulty_function : String)
    (game_session : Option GameSession) (rng : ℕ → ℚ) (k : ℕ) :
    Bool × Option GameSession × ℕ :=
  if turn_number = 1 then
    (false, game_session, k)
  else if (game_session.map (fun s => s.game_over)).getD false then
    (true, game_session, k)
  else
    let death_probability :=
      DifficultyProfile.evaluate evalExpr difficulty_function turn_number max_turns
    let roll := rng k
    let will_die := decide (roll < death_probability)
    let session' := game_session.map (fun s =>
      { s with last_death_probability := some death_probability,
               last_death_roll := some roll })
    (will_die, session', k + 1)

/-- The core's writes to a `GameSession` (`chat_views.py`, `difficulty_utils.py`):
updating the turn counter, recording a death roll, and marking the game over
(death trigger, max-turns completion, conversation deletion). No operation
writes `game_over := false`. -/
inductive SessionOp where
  | setTurnNumber (n : ℤ)
  | recordDeathRoll (probability roll : ℚ)
  | markGameOver
  deriving Repr, DecidableEq

def applySessionOp : SessionOp → GameSession → GameSession
  | SessionOp.setTurnNumber n, s => { s with turn_number := n }
  | SessionOp.recordDeathRoll p r, s =>
      { s with last_death_probability := some p, last_death_roll := some r }
  | SessionOp.markGameOver, s => { s with game_over := true }

/-! ## Session fingerprinting (`game/session_utils.py`,
`generate_conversation_fingerprint`) -/

/-- A conversation message. -/
structure Msg where
  role : String
  content : String
  deriving Repr, DecidableEq

/-- Python truthiness of an optional string: set and non-empty. -/
def truthyOpt : Option String → Bool
  | none => false
  | some s => s ≠ ""

/-- Python slicing `s[:n]`: the first `n` characters. -/
def strTake (s : String) (n : ℕ) : String :=
  String.mk (s.data.take n)

/-- First-set choice between two optionals. -/
def optOr : Option String → Option String → Option String
  | none, b => b
  | some a, _ => some a

/-- The scanning loop of `generate_conversation_fingerprint`: record the first
user content and first assistant content (an `is None` guard, so later
messages never overwrite), breaking once both are truthy. -/
def findFirsts : List Msg → Option String → Option String →
    Option String × Option String
  | [], fu, fa => (fu, fa)
  | m :: rest, fu, fa =>
    if m.role = "user" then
      let fu' := if fu = none then some m.content else fu
      if truthyOpt fu' ∧ truthyOpt fa then (fu', fa)
      else findFirsts rest fu' fa
    else if m.role = "assistant" then
      let fa' := if fa = none then some m.content else fa
      if truthyOpt fu ∧ truthyOpt fa' then (fu, fa')
      else findFirsts rest fu fa'
    else
      if truthyOpt fu ∧ truthyOpt fa then (fu, fa)
      else findFirsts rest fu fa

/-- `generate_conversation_fingerprint(messages)`: `hash` abstracts
`sha256(...).hexdigest()[:16]`; the combo string takes the first 200
characters of each side. Falsy (missing or empty) firsts give `None`. -/
def generate_conversation_fingerprint (hash : String → String)
    (messages : List Msg) : Option String :=
  let p := findFirsts messages none none
  if truthyOpt p.1 ∧ truthyOpt p.2 then
    some (hash (strTake (p.1.getD "") 200 ++ "|" ++ strTake (p.2.getD "") 200))
  else none

/-- Content of the first message with the given role, for stating claims about
"the first user message" / "the first assistant message". -/
def firstContent (role : String) : List Msg → Option String
  | [] => none
  | m :: rest => if m.role = role then some m.content else firstContent role rest

/-! ## Refusal detector and corrector (`game/refusal_detector.py`) -/

/-- Outcome of one `detect_refusal` classification call, given the oracle
outcome of the `call_llm` invocation. A raised exception is caught and yields
"not a refusal"; otherwise the decision is whether the stripped, lower-cased
response starts with `yes` or `true`. -/
def detect_refusal_outcome (call : Except String String) : Bool × String :=
  match call with
  | Except.error e => (false, "Error: " ++ e)
  | Except.ok resp =>
    let response_lower := strLower (strStrip resp)
    ((strStarts response_lower "yes" || strStarts response_lower "true" ||
      response_lower == "yes" || response_lower == "true"), resp)

/-- `detect_refusal(...)`: with no classifier configured the detection is
skipped (`(False, "")`). -/
def detect_refusal (hasClassifier : Bool) (call : Except String String) :
    Bool × String :=
  if !hasClassifier then (false, "")
  else detect_refusal_outcome call

/-- The configuration fields `process_potential_refusal` consults. A `has*`
flag models both the model and the prompt reference being set. -/
structure RefusalConfig where
  enable_refusal_detection : Bool
  hasClassifier : Bool
  hasTurnCorrection : Bool
  deriving Repr, DecidableEq

/-- One entry of `RefusalResult.attempts`; `error` models the presence of the
`'error': True` key. -/
structure RAttempt where
  attempt_number : ℕ
  turn_text : String
  classifier_response : String
  was_refusal : Bool
  error : Bool
  deriving Repr, DecidableEq

/-- Result dict of `process_potential_refusal`; `all_attempts_failed` models
the key as read by the caller with `.get(..., False)`. -/
structure RefusalResult where
  final_turn : String
  was_refusal : Bool
  classifier_response : String
  was_corrected : Bool
  turn_1_refusal : Bool
  all_attempts_failed : Bool
  attempts : List RAttempt
  deriving Repr, DecidableEq

/-- Generator oracle for one `process_potential_refusal` run: the initial
classification call, and per correction attempt number the correction
generation call and the re-classification call. -/
structure RefusalOracle where
  classifyInitial : Except String String
  correct : ℕ → Except String String
  classifyCorrected : ℕ → Except String String

/-- The `while attempts_remaining > 0` correction loop. `fuel` is
`attempts_remaining`, `cur` is `current_attempt`; a generation error records
an error attempt and consumes the budget; a corrected turn that re-classifies
as "not a refusal" is adopted (returned as `some`). -/
def correctionLoop (orc : RefusalOracle) :
    ℕ → ℕ → List RAttempt → List RAttempt × Option (String × String)
  | 0, _, acc => (acc, none)
  | fuel + 1, cur, acc =>
    match orc.correct cur with
    | Except.error e =>
      correctionLoop orc fuel (cur + 1)
        (acc ++ [⟨cur, "", "Error: " ++ e, true, true⟩])
    | Except.ok corrected =>
      let d := detect_refusal_outcome (orc.classifyCorrected cur)
      let acc2 := acc ++ [⟨cur, corrected, d.2, d.1, false⟩]
      if d.1 = false then (acc2, some (corrected, d.2))
      else correctionLoop orc fuel (cur + 1) acc2

/-- `process_potential_refusal(messages, story_turn, config, ..., turn_number,
max_retries)`. -/
def process_potential_refusal (cfg : RefusalConfig) (orc : RefusalOracle)
    (story_turn : String) (turn_number : ℤ) (max_retries : ℤ) : RefusalResult :=
  let base : RefusalResult := ⟨story_turn, false, "", false, false, false, []⟩
  if !cfg.enable_refusal_detection then base
  else if !cfg.hasClassifier then base
  else
    let d := detect_refusal cfg.hasClassifier orc.classifyInitial
    let r1 : RefusalResult := { base with
      was_refusal := d.1
      classifier_response := d.2
      attempts := [⟨1, story_turn, d.2, d.1, false⟩] }
    if d.1 = false then r1
    else if turn_number = 1 then { r1 with turn_1_refusal := true }
    else if !cfg.hasTurnCorrection then { r1 with all_attempts_failed := true }
    else
      let lp := correctionLoop orc (max_retries - 1).toNat 2 r1.attempts
      match lp.2 with
      | some s =>
        { r1 with attempts := lp.1, final_turn := s.1,
                  was_corrected := true, classifier_response := s.2 }
      | none =>
        { r1 with attempts := lp.1, was_corrected := false,
                  all_attempts_failed := true }

/-- The fixed fallback message `chat_api_send_message` substitutes for a
blocked turn. -/
def refusal_fallback_text : String :=
  "The AI is a petulant child and refused to play your game. Sorry about that, try again but maybe tone it down like 10%"

/-- The caller's substitution (`chat_views.py`): on a turn-1 refusal or an
exhausted correction loop the fixed fallback text is stored and returned;
otherwise the (possibly corrected) turn is the one carried forward. -/
def chat_displayed_turn (r : RefusalResult) : String :=
  if r.turn_1_refusal then refusal_fallback_text
  else if r.all_attempts_failed then refusal_fallback_text
  else r.final_turn

/-! ## Judge pipeline (`game/judge_pipeline.py`, `run_judge_pipeline`) -/

/-- One entry of a step's `attempts` list. -/
structure JAttempt where
  attempt_number : ℕ
  rewrite_text : String
  compare_response : String
  approved : Bool
  error : Option String
  deriving Repr, DecidableEq

/-- One entry of the pipeline result's `steps` list. -/
structure JudgeStepResult where
  name : String
  classifier_response : String
  needs_correction : Bool
  attempts : List JAttempt
  used_rewrite : Bool
  final_used : String
  error : Option String
  deriving Repr, DecidableEq

/-- The `JudgeStep` configuration fields the pipeline consults.
`hasClassifier` models `classifier_prompt and classifier_model` both set. -/
structure JudgeStep where
  name : String
  enabled : Bool
  hasClassifier : Bool
  max_rewrite_attempts : ℤ
  deriving Repr, DecidableEq

/-- Generator oracle for one step: the classification call, and per attempt
number the rewrite and comparison calls. An `error` models `call_llm`
raising. -/
structure StepOracle where
  classify : Except String String
  rewrite : ℕ → Except String String
  compare : ℕ → Except String String

/-- Mutable state of the rewrite/compare retry loop. -/
structure JLoopState where
  attempts : List JAttempt
  rewrite_approved : Bool
  best_rewrite : Option String
  all_attempts_failed : Bool
  last_error : Option String
  deriving Repr, DecidableEq

/-- The `for attempt_num in range(1, max_attempts + 1)` loop: a raised
rewrite or comparison call is caught per attempt, recorded, and the loop
continues; an approved comparison stops the loop. `fuel` is the number of
iterations left, `n` the attempt number. -/
def attemptLoop (orc : StepOracle) : ℕ → ℕ → JLoopState → JLoopState
  | 0, _, st => st
  | fuel + 1, n, st =>
    match orc.rewrite n with
    | Except.error e =>
      attemptLoop orc fuel (n + 1)
        { st with attempts := st.attempts ++ [⟨n, "", "", false, some e⟩],
                  all_attempts_failed := true, last_error := some e }
    | Except.ok rewrite_text =>
      match orc.compare n with
      | Except.error e =>
        attemptLoop orc fuel (n + 1)
          { st with attempts := st.attempts ++ [⟨n, rewrite_text, "", false, some e⟩],
                    all_attempts_failed := true, last_error := some e }
      | Except.ok compare_response =>
        let approved := parse_boolean_response compare_response false
        if approved then
          { st with attempts := st.attempts ++ [⟨n, rewrite_text, compare_response, true, none⟩],
                    rewrite_approved := true, best_rewrite := some rewrite_text }
        else
          attemptLoop orc fuel (n + 1)
            { st with attempts := st.attempts ++ [⟨n, rewrite_text, compare_response, false, none⟩] }

/-- The fresh `step_result` dict of one pipeline iteration. -/
def initStepResult (step : JudgeStep) : JudgeStepResult :=
  ⟨step.name, "", false, [], false, "original", none⟩

/-- Bookkeeping after the retry loop: record a trailing error when every
attempt raised, and adopt the rewrite only when approved and non-empty
(Python truthiness of `best_rewrite`). -/
def assembleStepResult (sr : JudgeStepResult) (fin : JLoopState)
    (current : String) : JudgeStepResult × String :=
  let sr1 := { sr with attempts := fin.attempts }
  let sr2 :=
    if fin.all_attempts_failed ∧ fin.rewrite_approved = false ∧ fin.last_error ≠ none
    then { sr1 with error := fin.last_error } else sr1
  if fin.rewrite_approved ∧ truthyOpt fin.best_rewrite then
    ({ sr2 with used_rewrite := true, final_used := "rewrite" }, fin.best_rewrite.getD "")
  else
    ({ sr2 with final_used := "original" }, current)

/-- Phases 2 and 3 of one step: `max_attempts = step.max_rewrite_attempts or 3`
(Python falsy: a zero value selects the default), the retry loop, then the
post-loop bookkeeping. -/
def rewritePhase (step : JudgeStep) (orc : StepOracle)
    (sr : JudgeStepResult) (current : String) : JudgeStepResult × String :=
  let max_attempts := if step.max_rewrite_attempts = 0 then 3 else step.max_rewrite_attempts
  assembleStepResult sr (attemptLoop orc max_attempts.toNat 1 ⟨[], false, none, false, none⟩) current

/-- One iteration of the pipeline's step loop. A classifier call that raises
escapes to the step-level handler: the error is recorded, `final_used` stays
`"original"`, and the running text is unchanged. A parsed "no correction
needed" makes the step a no-op. -/
def runJudgeStep (step : JudgeStep) (orc : StepOracle) (current : String) :
    JudgeStepResult × String :=
  let sr := initStepResult step
  if step.hasClassifier then
    match orc.classify with
    | Except.error e =>
      ({ sr with error := some e, final_used := "original" }, current)
    | Except.ok resp =>
      let needs_correction := parse_boolean_response resp true
      let sr := { sr with classifier_response := resp, needs_correction := needs_correction }
      if needs_correction = false then ({ sr with final_used := "original" }, current)
      else rewritePhase step orc sr current
  else
    rewritePhase step orc sr current

/-- Result dict of `run_judge_pipeline`. -/
structure PipelineResult where
  final_turn : String
  was_modified : Bool
  steps : List JudgeStepResult
  deriving Repr, DecidableEq

/-- The `for step in judge_steps` loop over the enabled steps, threading the
running text; `orcs i` is the generator oracle of the `i`-th enabled step. -/
def pipelineLoop (orcs : ℕ → StepOracle) :
    List JudgeStep → ℕ → String → List JudgeStepResult × String × Bool
  | [], _, current => ([], current, false)
  | step :: rest, i, current =>
    let r := runJudgeStep step (orcs i) current
    let t := pipelineLoop orcs rest (i + 1) r.2
    (r.1 :: t.1, t.2.1, r.1.used_rewrite || t.2.2)

/-- `run_judge_pipeline(messages, story_turn, config)`: the enabled steps run
in their configured order (the filtered list order); an absent configuration
or an empty step list leaves the turn unchanged. -/
def run_judge_pipeline (steps : List JudgeStep) (orcs : ℕ → StepOracle)
    (story_turn : String) : PipelineResult :=
  let judge_steps := steps.filter (fun s => s.enabled)
  let t := pipelineLoop orcs judge_steps 0 story_turn
  ⟨t.2.1, t.2.2, t.1⟩

/-! ## Shared helper lemmas -/

theorem attemptLoop_all_rejected (orc : StepOracle)
    (hrw : ∀ n, ∃ w, orc.rewrite n = Except.ok w)
    (hcmp : ∀ n, ∃ r, orc.compare n = Except.ok r ∧ parse_boolean_response r false = false) :
    ∀ fuel n st,
      (attemptLoop orc fuel n st).attempts.length = st.attempts.length + fuel ∧
      (attemptLoop orc fuel n st).rewrite_approved = st.rewrite_approved ∧
      (attemptLoop orc fuel n st).best_rewrite = st.best_rewrite ∧
      (attemptLoop orc fuel n st).all_attempts_failed = st.all_attempts_failed ∧
      (attemptLoop orc fuel n st).last_error = st.last_error := by
  intro fuel
  induction fuel with
  | zero => intro n st; simp [attemptLoop]
  | succ k ih =>
    intro n st
    obtain ⟨w, hw⟩ := hrw n
    obtain ⟨r, hr, hpr⟩ := hcmp n
    have step_eq : attemptLoop orc (k + 1) n st =
        attemptLoop orc k (n + 1)
          { st with attempts := st.attempts ++ [⟨n, w, r, false, none⟩] } := by
      simp [attemptLoop, hw, hr, hpr]
    rw [step_eq]
    obtain ⟨l1, l2, l3, l4, l5⟩ := ih (n + 1)
      { st with attempts := st.attempts ++ [⟨n, w, r, false, none⟩] }
    refine ⟨?_, l2, l3, l4, l5⟩
    rw [l1]
    simp
    omega

theorem assemble_text_or_used (sr : JudgeStepResult) (fin : JLoopState) (cur : String) :
    (assembleStepResult sr fin cur).1.used_rewrite = true ∨
      (assembleStepResult sr fin cur).2 = cur := by
  simp only [assembleStepResult]
  repeat' split
  all_goals first | (left; rfl) | (right; rfl)

theorem assemble_name (sr : JudgeStepResult) (fin : JLoopState) (cur : String) :
    (assembleStepResult sr fin cur).1.name = sr.name := by
  simp only [assembleStepResult]
  repeat' split
  all_goals rfl

theorem assemble_no_approve (sr : JudgeStepResult) (fin : JLoopState) (cur : String)
    (h2 : fin.rewrite_approved = false) (h4 : fin.all_attempts_failed = false) :
    assembleStepResult sr fin cur =
      ({ { sr with attempts := fin.attempts } with final_used := "original" }, cur) := by
  simp only [assembleStepResult]
  rw [if_neg (show ¬(fin.rewrite_approved = true ∧ truthyOpt fin.best_rewrite = true) by
        simp [h2])]
  rw [if_neg (show ¬(fin.all_attempts_failed = true ∧ fin.rewrite_approved = false ∧
        fin.last_error ≠ none) by simp [h4])]

theorem rewritePhase_text_or_used (step : JudgeStep) (orc : StepOracle)
    (sr : JudgeStepResult) (cur : String) :
    (rewritePhase step orc sr cur).1.used_rewrite = true ∨
      (rewritePhase step orc sr cur).2 = cur := by
  simp only [rewritePhase]
  exact assemble_text_or_used _ _ _

theorem rewritePhase_name (step : JudgeStep) (orc : StepOracle)
    (sr : JudgeStepResult) (cur : String) :
    (rewritePhase step orc sr cur).1.name = sr.name := by
  simp only [rewritePhase]
  exact assemble_name _ _ _

theorem runJudgeStep_name (step : JudgeStep) (orc : StepOracle) (cur : String) :
    (runJudgeStep step orc cur).1.name = step.name := by
  simp only [runJudgeStep]
  by_cases hc : step.hasClassifier
  · simp only [hc]
    cases horc : orc.classify with
    | error e => rfl
    | ok resp =>
      by_cases hp : parse_boolean_response resp true = false
      · simp [hp, initStepResult]
      · simp [hp, rewritePhase_name, initStepResult]
  · simp [hc, rewritePhase_name, initStepResult]

theorem runJudgeStep_text_or_used (step : JudgeStep) (orc : StepOracle) (cur : String) :
    (runJudgeStep step orc cur).1.used_rewrite = true ∨
      (runJudgeStep step orc cur).2 = cur := by
  simp only [runJudgeStep]
  by_cases hc : step.hasClassifier
  · simp only [hc]
    cases horc : orc.classify with
    | error e => right; rfl
    | ok resp =>
      by_cases hp : parse_boolean_response resp true = false
      · simp only [hp]; right; rfl
      · simp only [hp]
        exact rewritePhase_text_or_used step orc _ cur
  · simp only [hc]
    exact rewritePhase_text_or_used step orc _ cur

theorem pipelineLoop_names (orcs : ℕ → StepOracle) :
    ∀ (l : List JudgeStep) (i : ℕ) (cur : String),
      ((pipelineLoop orcs l i cur).1).map (fun r => r.name) = l.map (fun s => s.name) := by
  intro l
  induction l with
  | nil => intro i cur; rfl
  | cons s rest ih =>
    intro i cur
    simp only [pipelineLoop, List.map]
    rw [runJudgeStep_name, ih]

theorem pipelineLoop_unmodified (orcs : ℕ → StepOracle) :
    ∀ (l : List JudgeStep) (i : ℕ) (cur : String),
      (∀ r ∈ (pipelineLoop orcs l i cur).1, r.used_rewrite = false) →
      (pipelineLoop orcs l i cur).2.1 = cur ∧ (pipelineLoop orcs l i cur).2.2 = false := by
  intro l
  induction l with
  | nil => intro i cur _; exact ⟨rfl, rfl⟩
  | cons s rest ih =>
    intro i cur h
    have hmem : (pipelineLoop orcs (s :: rest) i cur).1 =
        (runJudgeStep s (orcs i) cur).1 ::
          (pipelineLoop orcs rest (i + 1) ((runJudgeStep s (orcs i) cur).2)).1 := rfl
    have h0 : (runJudgeStep s (orcs i) cur).1.used_rewrite = false := by
      apply h
      rw [hmem]
      exact List.mem_cons_self _ _
    have htext : (runJudgeStep s (orcs i) cur).2 = cur := by
      rcases runJudgeStep_text_or_used s (orcs i) cur with hu | hu
      · rw [h0] at hu; exact absurd hu (by simp)
      · exact hu
    have hrest : ∀ r ∈ (pipelineLoop orcs rest (i + 1) ((runJudgeStep s (orcs i) cur).2)).1,
        r.used_rewrite = false := by
      intro r hr
      apply h
      rw [hmem]
      exact List.mem_cons_of_mem _ hr
    obtain ⟨e1, e2⟩ := ih (i + 1) ((runJudgeStep s (orcs i) cur).2) hrest
    rw [htext] at e1 e2
    have hfst : (pipelineLoop orcs (s :: rest) i cur).2.1 =
        (pipelineLoop orcs rest (i + 1) ((runJudgeStep s (orcs i) cur).2)).2.1 := rfl
    have hsnd : (pipelineLoop orcs (s :: rest) i cur).2.2 =
        ((runJudgeStep s (orcs i) cur).1.used_rewrite ||
          (pipelineLoop orcs rest (i + 1) ((runJudgeStep s (orcs i) cur).2)).2.2) := rfl
    constructor
    · rw [hfst, htext] at *
      exact e1
    · rw [hsnd, h0, htext, e2]
      rfl

theorem correctionLoop_all_refused (orc : RefusalOracle)
    (h : ∀ n w, orc.correct n = Except.ok w →
        (detect_refusal_outcome (orc.classifyCorrected n)).1 = true) :
    ∀ fuel cur acc,
      (correctionLoop orc fuel cur acc).1.length = acc.length + fuel ∧
      (correctionLoop orc fuel cur acc).2 = none := by
  intro fuel
  induction fuel with
  | zero => intro cur acc; simp [correctionLoop]
  | succ k ih =>
    intro cur acc
    cases hcor : orc.correct cur with
    | error e =>
      have step_eq : correctionLoop orc (k + 1) cur acc =
          correctionLoop orc k (cur + 1) (acc ++ [⟨cur, "", "Error: " ++ e, true, true⟩]) := by
        simp [correctionLoop, hcor]
      rw [step_eq]
      obtain ⟨ih1, ih2⟩ := ih (cur + 1) (acc ++ [⟨cur, "", "Error: " ++ e, true, true⟩])
      refine ⟨?_, ih2⟩
      rw [ih1]
      simp
      omega
    | ok w =>
      have hd := h cur w hcor
      have step_eq : correctionLoop orc (k + 1) cur acc =
          correctionLoop orc k (cur + 1)
            (acc ++ [⟨cur, w, (detect_refusal_outcome (orc.classifyCorrected cur)).2,
              true, false⟩]) := by
        simp [correctionLoop, hcor, hd]
      rw [step_eq]
      obtain ⟨ih1, ih2⟩ := ih (cur + 1)
        (acc ++ [⟨cur, w, (detect_refusal_outcome (orc.classifyCorrected cur)).2, true, false⟩])
      refine ⟨?_, ih2⟩
      rw [ih1]
      simp
      omega

theorem optOr_none_right (x : Option String) : optOr x none = x := by
  cases x <;> rfl

theorem ifnone_eq_optOr (fu : Option String) (c : String) :
    (if fu = none then some c else fu) = optOr fu (some c) := by
  cases fu <;> rfl

theorem optOr_of_truthy (x y : Option String) (h : truthyOpt x = true) : optOr x y = x := by
  cases x with
  | none => simp [truthyOpt] at h
  | some s => rfl

theorem optOr_optOr_some (fu : Option String) (c : String) (y : Option String) :
    optOr (optOr fu (some c)) y = optOr fu (some c) := by
  cases fu <;> rfl

theorem findFirsts_eq : ∀ (msgs : List Msg) (fu fa : Option String),
    findFirsts msgs fu fa =
      (optOr fu (firstContent "user" msgs), optOr fa (firstContent "assistant" msgs)) := by
  intro msgs
  induction msgs with
  | nil => intro fu fa; simp [findFirsts, firstContent, optOr_none_right]
  | cons m rest ih =>
    intro fu fa
    have hau : ("assistant" = "user") = False := by simp
    have hua : ("user" = "assistant") = False := by simp
    by_cases hu : m.role = "user"
    · have hna : ¬(m.role = "assistant") := by rw [hu]; decide
      simp only [findFirsts, firstContent, hu, hna, hau, hua, if_true, if_false, ite_true,
        ite_false, ifnone_eq_optOr]
      by_cases hb : truthyOpt (optOr fu (some m.content)) = true ∧ truthyOpt fa = true
      · rw [if_pos hb]
        rw [optOr_of_truthy fa _ hb.2]
      · rw [if_neg hb, ih]
        rw [optOr_optOr_some]
    · by_cases ha : m.role = "assistant"
      · have hnu : ¬(m.role = "user") := hu
        simp only [findFirsts, firstContent, hnu, ha, hau, hua, if_true, if_false, ite_true,
          ite_false, ifnone_eq_optOr]
        by_cases hb : truthyOpt fu = true ∧ truthyOpt (optOr fa (some m.content)) = true
        · rw [if_pos hb]
          rw [optOr_of_truthy fu _ hb.1]
        · rw [if_neg hb, ih]
          rw [optOr_optOr_some]
      · simp only [findFirsts, firstContent, hu, ha, hau, hua, if_true, if_false, ite_true,
          ite_false]
        by_cases hb : truthyOpt fu = true ∧ truthyOpt fa = true
        · rw [if_pos hb]
          rw [optOr_of_truthy fu _ hb.1, optOr_of_truthy fa _ hb.2]
        · rw [if_neg hb, ih]

theorem gcf_firsts (hash : String → String) (msgs : List Msg) :
    generate_conversation_fingerprint hash msgs =
      (if truthyOpt (firstContent "user" msgs) ∧ truthyOpt (firstContent "assistant" msgs) then
        some (hash (strTake ((firstContent "user" msgs).getD "") 200 ++ "|" ++
          strTake ((firstContent "assistant" msgs).getD "") 200))
      else none) := by
  unfold generate_conversation_fingerprint
  rw [findFirsts_eq]
  rfl

theorem strTake_200_empty (s : String) : (strTake s 200 = "") ↔ (s = "") := by
  constructor
  · intro h
    have hd : s.data.take 200 = [] := congrArg String.data h
    have hlen : (s.data.take 200).length = 0 := by rw [hd]; rfl
    rw [List.length_take] at hlen
    have hzero : s.data.length = 0 := by omega
    have hs : s.data = [] := List.eq_nil_of_length_eq_zero hzero
    cases s with
    | mk data => rw [show data = [] from hs]
  · intro h
    rw [h]
    rfl

/-! ## Claim theorems -/

/-- Claim C1, counterexample to the claim as stated: for a session with
`game_over = true`, a `should_trigger_death` call with `turn_number = 1` is
answered by the turn-1 exemption, which is checked first, and returns `false`,
not "trigger ending". -/
theorem C1_turn_one_overrides_game_over :
    (should_trigger_death (fun _ _ _ => Except.ok 1) 1 20 "1.0"
      (some ⟨"s", 1, 20, true, none, none⟩) (fun _ => 0) 0).1 = false := by
  decide

/-- Claim C1 (amended): for a session with `game_over = true`, every call of
`should_trigger_death` with `turn_number ≠ 1` returns "trigger ending" with the
session left unchanged (`last_death_roll` and `last_death_probability` kept) and
no random roll drawn (cursor unchanged), for every difficulty expression oracle;
and no core session operation resets `game_over` from `true` to `false`. -/
theorem C1_game_over_idempotent_latch
    (evalExpr : String → ℤ → ℤ → Except String ℚ)
    (turn_number max_turns : ℤ) (difficulty_function : String)
    (s : GameSession) (rng : ℕ → ℚ) (k : ℕ)
    (hturn : turn_number ≠ 1) (hover : s.game_over = true) :
    should_trigger_death evalExpr turn_number max_turns difficulty_function (some s) rng k
      = (true, some s, k) ∧
    (∀ op t, t.game_over = true → (applySessionOp op t).game_over = true) := by
  constructor
  · simp [should_trigger_death, hturn, hover]
  · intro op t ht
    cases op <;> simp [applySessionOp, ht]

/-- Claim C1, witness: the amended theorem applied at turn 2 on a concrete
game-over session. -/
theorem C1_game_over_idempotent_latch_witness :
    should_trigger_death (fun _ _ _ => Except.ok 0) 2 20 "0.0"
        (some ⟨"s", 2, 20, true, none, none⟩) (fun _ => 0) 5
      = (true, some ⟨"s", 2, 20, true, none, none⟩, 5) ∧
    (∀ op t, t.game_over = true → (applySessionOp op t).game_over = true) :=
  C1_game_over_idempotent_latch (fun _ _ _ => Except.ok 0) 2 20 "0.0"
    ⟨"s", 2, 20, true, none, none⟩ (fun _ => 0) 5 (by decide) rfl

/-- Claim C2: with `turn_number = 1`, `should_trigger_death` returns `false`
for every session, difficulty expression and `max_turns`, leaving the session
untouched and drawing no roll (the result does not depend on the expression
oracle and the random cursor does not advance). -/
theorem C2_turn_one_never_triggers
    (evalExpr : String → ℤ → ℤ → Except String ℚ) (max_turns : ℤ)
    (difficulty_function : String) (game_session : Option GameSession)
    (rng : ℕ → ℚ) (k : ℕ) :
    should_trigger_death evalExpr 1 max_turns difficulty_function game_session rng k
      = (false, game_session, k) := by
  simp [should_trigger_death]

/-- Claim C3: `DifficultyProfile.evaluate` returns a value in `[0, 1]` for
every expression and every behaviour of the expression interpreter, raised
exceptions included (totality of the embedding models "never raises"). -/
theorem C3_evaluate_always_clamped (evalExpr : String → ℤ → ℤ → Except String ℚ)
    (function : String) (x n : ℤ) :
    0 ≤ DifficultyProfile.evaluate evalExpr function x n ∧
      DifficultyProfile.evaluate evalExpr function x n ≤ 1 := by
  unfold DifficultyProfile.evaluate
  cases evalExpr function x n with
  | error e => simp
  | ok r =>
    refine ⟨le_max_left _ _, max_le (by norm_num) (min_le_left _ _)⟩

/-- Claim C4: for every configuration and generator behaviour, the pipeline
produces one result per enabled step in order; a step-level exception (a raised
classifier call) is recorded in the step's `error` with `final_used =
"original"` and the running text unchanged; and if no step adopts a rewrite,
`final_turn` is the input turn and `was_modified` is `false`. -/
theorem C4_pipeline_error_containment (steps : List JudgeStep)
    (orcs : ℕ → StepOracle) (story_turn : String) :
    ((run_judge_pipeline steps orcs story_turn).steps.map (fun r => r.name)
        = (steps.filter (fun s => s.enabled)).map (fun s => s.name)) ∧
    (∀ (step : JudgeStep) (orc : StepOracle) (cur e : String),
        step.hasClassifier = true → orc.classify = Except.error e →
        runJudgeStep step orc cur =
          ({ initStepResult step with error := some e, final_used := "original" }, cur)) ∧
    ((∀ r ∈ (run_judge_pipeline steps orcs story_turn).steps, r.used_rewrite = false) →
        (run_judge_pipeline steps orcs story_turn).final_turn = story_turn ∧
        (run_judge_pipeline steps orcs story_turn).was_modified = false) := by
  refine ⟨?_, ?_, ?_⟩
  · exact pipelineLoop_names orcs _ 0 story_turn
  · intro step orc cur e hc he
    simp [runJudgeStep, hc, he]
  · intro h
    exact pipelineLoop_unmodified orcs _ 0 story_turn h

/-- Claim C4, witness: a one-step pipeline whose classifier call raises keeps
the original turn, reports the step, and records the error. -/
theorem C4_pipeline_error_containment_witness :
    ((run_judge_pipeline [⟨"s1", true, true, 1⟩]
        (fun _ => ⟨Except.error "down", fun _ => Except.ok "w", fun _ => Except.ok "NO"⟩)
        "orig").final_turn = "orig" ∧
      (run_judge_pipeline [⟨"s1", true, true, 1⟩]
        (fun _ => ⟨Except.error "down", fun _ => Except.ok "w", fun _ => Except.ok "NO"⟩)
        "orig").was_modified = false) ∧
    runJudgeStep ⟨"s1", true, true, 1⟩
        ⟨Except.error "down", fun _ => Except.ok "w", fun _ => Except.ok "NO"⟩ "orig"
      = ({ initStepResult ⟨"s1", true, true, 1⟩ with
            error := some "down", final_used := "original" }, "orig") :=
  ⟨(C4_pipeline_error_containment [⟨"s1", true, true, 1⟩]
      (fun _ => ⟨Except.error "down", fun _ => Except.ok "w", fun _ => Except.ok "NO"⟩)
      "orig").2.2 (by decide),
   (C4_pipeline_error_containment [⟨"s1", true, true, 1⟩]
      (fun _ => ⟨Except.error "down", fun _ => Except.ok "w", fun _ => Except.ok "NO"⟩)
      "orig").2.1 ⟨"s1", true, true, 1⟩
      ⟨Except.error "down", fun _ => Except.ok "w", fun _ => Except.ok "NO"⟩
      "orig" "down" rfl rfl⟩

/-- Claim C5, counterexample to the claim as stated: a step configured with
`max_rewrite_attempts = 0` (Python falsy) runs the default of 3 attempts, so
the attempts list does not have "exactly max_rewrite_attempts" entries. -/
theorem C5_zero_max_attempts_defaults_to_three :
    (runJudgeStep ⟨"no-classifier", true, false, 0⟩
        ⟨Except.ok "", fun _ => Except.ok "rewrite", fun _ => Except.ok "NO"⟩
        "turn").1.attempts.length = 3 ∧
    ¬ ((runJudgeStep ⟨"no-classifier", true, false, 0⟩
        ⟨Except.ok "", fun _ => Except.ok "rewrite", fun _ => Except.ok "NO"⟩
        "turn").1.attempts.length = Int.toNat 0) := by
  decide

/-- Claim C5 (amended): an enabled step with no classifier and
`max_rewrite_attempts ≥ 1` always reaches the rewrite phase (the attempts list
is non-empty); when every comparison rejects and no call raises, the attempts
list has exactly `max_rewrite_attempts` entries, `final_used = "original"`, and
the running text passes to the next step unchanged. (A zero value is replaced
by the default of 3.) -/
theorem C5_no_classifier_all_rejected (step : JudgeStep) (orc : StepOracle) (cur : String)
    (hnc : step.hasClassifier = false)
    (hpos : 1 ≤ step.max_rewrite_attempts)
    (hrw : ∀ n, ∃ w, orc.rewrite n = Except.ok w)
    (hcmp : ∀ n, ∃ r, orc.compare n = Except.ok r ∧ parse_boolean_response r false = false) :
    (runJudgeStep step orc cur).1.attempts.length = step.max_rewrite_attempts.toNat ∧
    (runJudgeStep step orc cur).1.attempts ≠ [] ∧
    (runJudgeStep step orc cur).1.final_used = "original" ∧
    (runJudgeStep step orc cur).2 = cur := by
  have hrun : runJudgeStep step orc cur = rewritePhase step orc (initStepResult step) cur := by
    simp [runJudgeStep, hnc]
  have hmax : (if step.max_rewrite_attempts = 0 then 3 else step.max_rewrite_attempts)
      = step.max_rewrite_attempts := if_neg (by omega)
  obtain ⟨l1, l2, l3, l4, l5⟩ := attemptLoop_all_rejected orc hrw hcmp
      step.max_rewrite_attempts.toNat 1 ⟨[], false, none, false, none⟩
  have hrew : rewritePhase step orc (initStepResult step) cur
      = assembleStepResult (initStepResult step)
          (attemptLoop orc step.max_rewrite_attempts.toNat 1 ⟨[], false, none, false, none⟩)
          cur := by
    simp only [rewritePhase, hmax]
  have hassemble := assemble_no_approve (initStepResult step)
      (attemptLoop orc step.max_rewrite_attempts.toNat 1 ⟨[], false, none, false, none⟩) cur
      (by rw [l2]) (by rw [l4])
  rw [hrun, hrew, hassemble]
  have hlen : (attemptLoop orc step.max_rewrite_attempts.toNat 1
      ⟨[], false, none, false, none⟩).attempts.length = step.max_rewrite_attempts.toNat := by
    rw [l1]; simp
  refine ⟨hlen, ?_, rfl, rfl⟩
  show (attemptLoop orc step.max_rewrite_attempts.toNat 1
      ⟨[], false, none, false, none⟩).attempts ≠ []
  intro hnil
  rw [hnil] at hlen
  simp at hlen
  omega

/-- Claim C5, witness: a classifier-less step with `max_rewrite_attempts = 2`
and an always-rejecting comparator records exactly two attempts and keeps the
original text. -/
theorem C5_no_classifier_all_rejected_witness :
    (runJudgeStep ⟨"s", true, false, 2⟩
        ⟨Except.ok "", fun _ => Except.ok "w", fun _ => Except.ok "NO"⟩
        "orig").1.attempts.length = Int.toNat 2 ∧
    (runJudgeStep ⟨"s", true, false, 2⟩
        ⟨Except.ok "", fun _ => Except.ok "w", fun _ => Except.ok "NO"⟩
        "orig").1.attempts ≠ [] ∧
    (runJudgeStep ⟨"s", true, false, 2⟩
        ⟨Except.ok "", fun _ => Except.ok "w", fun _ => Except.ok "NO"⟩
        "orig").1.final_used = "original" ∧
    (runJudgeStep ⟨"s", true, false, 2⟩
        ⟨Except.ok "", fun _ => Except.ok "w", fun _ => Except.ok "NO"⟩
        "orig").2 = "orig" :=
  C5_no_classifier_all_rejected ⟨"s", true, false, 2⟩
    ⟨Except.ok "", fun _ => Except.ok "w", fun _ => Except.ok "NO"⟩ "orig"
    rfl (by decide) (fun _ => ⟨"w", rfl⟩) (fun _ => ⟨"NO", rfl, by decide⟩)

/-- Claim C6, counterexample to the claim as stated: when the classifier call
raises, the step does not proceed to the rewrite/compare retry loop — the
attempts list stays empty (with an always-approving comparator that would have
adopted a rewrite), the error is recorded, and the text is unchanged. -/
theorem C6_classifier_error_skips_rewrite_loop :
    (runJudgeStep ⟨"guard", true, true, 3⟩
        ⟨Except.error "timeout", fun _ => Except.ok "rewrite", fun _ => Except.ok "YES"⟩
        "turn").1.attempts = [] ∧
    (runJudgeStep ⟨"guard", true, true, 3⟩
        ⟨Except.error "timeout", fun _ => Except.ok "rewrite", fun _ => Except.ok "YES"⟩
        "turn").1.error = some "timeout" ∧
    (runJudgeStep ⟨"guard", true, true, 3⟩
        ⟨Except.error "timeout", fun _ => Except.ok "rewrite", fun _ => Except.ok "YES"⟩
        "turn").2 = "turn" := by
  decide

/-- Claim C6 (amended): a classifier call that *returns* an ambiguous response
fails open toward the default "needs correction" and the step proceeds to the
rewrite phase; a classifier call that *raises* is caught by the step-level
handler, which records the error and skips the step (rewrite loop not entered,
running text unchanged). -/
theorem C6_classifier_outcome_semantics :
    (∀ (step : JudgeStep) (orc : StepOracle) (cur resp : String),
        step.hasClassifier = true → orc.classify = Except.ok resp →
        parse_boolean_response resp true = true →
        runJudgeStep step orc cur =
          rewritePhase step orc
            { initStepResult step with classifier_response := resp, needs_correction := true }
            cur) ∧
    (∀ (step : JudgeStep) (orc : StepOracle) (cur e : String),
        step.hasClassifier = true → orc.classify = Except.error e →
        runJudgeStep step orc cur =
          ({ initStepResult step with error := some e, final_used := "original" }, cur)) := by
  constructor
  · intro step orc cur resp hc hok hp
    simp [runJudgeStep, hc, hok, hp]
  · intro step orc cur e hc he
    simp [runJudgeStep, hc, he]

/-- Claim C6, witness: an ambiguous classifier response proceeds to the rewrite
phase; a raising classifier call skips the step with its error recorded. -/
theorem C6_classifier_outcome_semantics_witness :
    runJudgeStep ⟨"s", true, true, 1⟩
        ⟨Except.ok "unclear", fun _ => Except.ok "w", fun _ => Except.ok "NO"⟩ "orig"
      = rewritePhase ⟨"s", true, true, 1⟩
          ⟨Except.ok "unclear", fun _ => Except.ok "w", fun _ => Except.ok "NO"⟩
          { initStepResult ⟨"s", true, true, 1⟩ with
              classifier_response := "unclear", needs_correction := true } "orig" ∧
    runJudgeStep ⟨"s", true, true, 1⟩
        ⟨Except.error "down", fun _ => Except.ok "w", fun _ => Except.ok "NO"⟩ "orig"
      = ({ initStepResult ⟨"s", true, true, 1⟩ with
            error := some "down", final_used := "original" }, "orig") :=
  ⟨C6_classifier_outcome_semantics.1 ⟨"s", true, true, 1⟩
      ⟨Except.ok "unclear", fun _ => Except.ok "w", fun _ => Except.ok "NO"⟩
      "orig" "unclear" rfl rfl (by decide),
   C6_classifier_outcome_semantics.2 ⟨"s", true, true, 1⟩
      ⟨Except.error "down", fun _ => Except.ok "w", fun _ => Except.ok "NO"⟩
      "orig" "down" rfl rfl⟩

/-- Claim C7: with detection, classifier and correction configured, a turn
number of at least 2 and `max_retries = 3`, if the classifier reports a refusal
for the initial turn and for every corrected candidate (generation errors also
consuming the budget), then exactly 3 attempts are recorded (the initial
classification is attempt 1), `all_attempts_failed = true`,
`was_corrected = false`, and the caller substitutes the fixed fallback message
for the displayed turn. -/
theorem C7_refusal_retries_exhausted (cfg : RefusalConfig) (orc : RefusalOracle)
    (story_turn : String) (turn_number : ℤ)
    (he : cfg.enable_refusal_detection = true) (hc : cfg.hasClassifier = true)
    (hk : cfg.hasTurnCorrection = true) (ht : 2 ≤ turn_number)
    (h0 : (detect_refusal_outcome orc.classifyInitial).1 = true)
    (hall : ∀ n w, orc.correct n = Except.ok w →
        (detect_refusal_outcome (orc.classifyCorrected n)).1 = true) :
    (process_potential_refusal cfg orc story_turn turn_number 3).attempts.length = 3 ∧
    (process_potential_refusal cfg orc story_turn turn_number 3).all_attempts_failed = true ∧
    (process_potential_refusal cfg orc story_turn turn_number 3).was_corrected = false ∧
    chat_displayed_turn (process_potential_refusal cfg orc story_turn turn_number 3)
      = refusal_fallback_text := by
  have ht1 : ¬(turn_number = 1) := by omega
  have hfuel : ((3 : ℤ) - 1).toNat = 2 := by decide
  obtain ⟨lp1, lp2⟩ := correctionLoop_all_refused orc hall 2 2
      [⟨1, story_turn, (detect_refusal_outcome orc.classifyInitial).2, true, false⟩]
  simp only [process_potential_refusal, he, hc, hk, Bool.not_true, Bool.false_eq_true,
    if_false, detect_refusal, Bool.not_eq_true', h0, ht1, hfuel, ite_false, ite_true]
  rw [if_neg (show ¬(true = false) by simp), lp2]
  refine ⟨?_, rfl, rfl, rfl⟩
  show (correctionLoop orc 2 2
      [⟨1, story_turn, (detect_refusal_outcome orc.classifyInitial).2, true, false⟩]).1.length = 3
  rw [lp1]
  rfl

/-- Claim C7, witness: a classifier that always answers "yes" (refusal) with a
corrector that always produces another refused candidate exhausts the 3-attempt
budget, and the caller displays the fixed fallback message. -/
theorem C7_refusal_retries_exhausted_witness :
    (process_potential_refusal ⟨true, true, true⟩
        ⟨Except.ok "yes", fun _ => Except.ok "still refusing", fun _ => Except.ok "yes"⟩
        "orig" 5 3).attempts.length = 3 ∧
    (process_potential_refusal ⟨true, true, true⟩
        ⟨Except.ok "yes", fun _ => Except.ok "still refusing", fun _ => Except.ok "yes"⟩
        "orig" 5 3).all_attempts_failed = true ∧
    (process_potential_refusal ⟨true, true, true⟩
        ⟨Except.ok "yes", fun _ => Except.ok "still refusing", fun _ => Except.ok "yes"⟩
        "orig" 5 3).was_corrected = false ∧
    chat_displayed_turn (process_potential_refusal ⟨true, true, true⟩
        ⟨Except.ok "yes", fun _ => Except.ok "still refusing", fun _ => Except.ok "yes"⟩
        "orig" 5 3) = refusal_fallback_text :=
  C7_refusal_retries_exhausted ⟨true, true, true⟩
    ⟨Except.ok "yes", fun _ => Except.ok "still refusing", fun _ => Except.ok "yes"⟩
    "orig" 5 rfl rfl rfl (by decide) (by decide)
    (fun n w _ => by
      show (detect_refusal_outcome (Except.ok "yes")).1 = true
      decide)

/-- Claim C8, counterexample to the claim as stated: the classifier response
"Refusal: YES" contains the positive token YES, so the shared boolean parser
with default `false` returns `true`, but the refusal detector's decision is
`false` (the response does not start with "yes"/"true"): the two disagree. -/
theorem C8_substring_parser_disagrees :
    (detect_refusal_outcome (Except.ok "Refusal: YES")).1 = false ∧
    parse_boolean_response "Refusal: YES" false = true := by
  constructor <;> decide

/-- Claim C8 (amended): the refusal detector's phase-1 decision is `true`
exactly when the stripped, lower-cased classifier response starts with "yes" or
"true" (not the shared substring-based boolean parser), and a classification
call that raises yields "not a refusal". -/
theorem C8_detect_refusal_startswith :
    (∀ resp, (detect_refusal_outcome (Except.ok resp)).1 =
        (strStarts (strLower (strStrip resp)) "yes" ||
          strStarts (strLower (strStrip resp)) "true")) ∧
    (∀ e, (detect_refusal_outcome (Except.error e)).1 = false) := by
  constructor
  · intro resp
    show (strStarts (strLower (strStrip resp)) "yes" || strStarts (strLower (strStrip resp)) "true" ||
          strLower (strStrip resp) == "yes" || strLower (strStrip resp) == "true")
        = (strStarts (strLower (strStrip resp)) "yes" || strStarts (strLower (strStrip resp)) "true")
    by_cases h1 : strLower (strStrip resp) = "yes"
    · rw [h1]; decide
    · by_cases h2 : strLower (strStrip resp) = "true"
      · rw [h2]; decide
      · have e1 : (strLower (strStrip resp) == "yes") = false := by simp [h1]
        have e2 : (strLower (strStrip resp) == "true") = false := by simp [h2]
        rw [e1, e2]
        simp
  · intro e; rfl

/-- Claim C9: the boolean parser returns `true` when the stripped upper-cased
text contains a positive token (YES/TRUE/PASS, checked first), `false` when it
contains a negative token (NO/FALSE/FAIL) and no positive one, and the caller's
default otherwise (empty input included); with the three concrete examples of
the specification. -/
theorem C9_boolean_parser_tokens :
    (∀ text dflt,
      [ "YES", "TRUE", "PASS" ].any (fun x => strContains (strUpper (strStrip text)) x) = true →
      parse_boolean_response text dflt = true) ∧
    (∀ text dflt,
      [ "YES", "TRUE", "PASS" ].any (fun x => strContains (strUpper (strStrip text)) x) = false →
      [ "NO", "FALSE", "FAIL" ].any (fun x => strContains (strUpper (strStrip text)) x) = true →
      parse_boolean_response text dflt = false) ∧
    (∀ text dflt,
      [ "YES", "TRUE", "PASS" ].any (fun x => strContains (strUpper (strStrip text)) x) = false →
      [ "NO", "FALSE", "FAIL" ].any (fun x => strContains (strUpper (strStrip text)) x) = false →
      parse_boolean_response text dflt = dflt) ∧
    parse_boolean_response "YES - because X" false = true ∧
    parse_boolean_response "not sure" false = false ∧
    parse_boolean_response "" true = true := by
  refine ⟨?_, ?_, ?_, by decide, by decide, by decide⟩
  · intro text dflt h
    by_cases ht : text = ""
    · subst ht; exact absurd h (by decide)
    · simp [parse_boolean_response, ht, h]
  · intro text dflt hp hn
    by_cases ht : text = ""
    · subst ht; exact absurd hn (by decide)
    · simp [parse_boolean_response, ht, hp, hn]
  · intro text dflt hp hn
    by_cases ht : text = ""
    · subst ht; simp [parse_boolean_response]
    · simp [parse_boolean_response, ht, hp, hn]

/-- Claim C9, witness: the token rules applied at concrete inputs. -/
theorem C9_boolean_parser_tokens_witness :
    parse_boolean_response "sure, YES" false = true ∧
    parse_boolean_response "I would say: FAIL" true = false ∧
    parse_boolean_response "hmm" true = true :=
  ⟨C9_boolean_parser_tokens.1 "sure, YES" false (by decide),
   C9_boolean_parser_tokens.2.1 "I would say: FAIL" true (by decide) (by decide),
   C9_boolean_parser_tokens.2.2.1 "hmm" true (by decide) (by decide)⟩

/-- Claim C10: the conversation fingerprint depends only on the first 200
characters of the first user content and of the first assistant content (lists
agreeing on those prefixes give equal fingerprints for every hash function),
and it is `none` whenever there is no user message, no assistant message, or
either first content is the empty string. -/
theorem C10_fingerprint_prefix_dependence :
    (∀ (hash : String → String) (m1 m2 : List Msg) (u1 u2 a1 a2 : String),
        firstContent "user" m1 = some u1 → firstContent "user" m2 = some u2 →
        firstContent "assistant" m1 = some a1 → firstContent "assistant" m2 = some a2 →
        strTake u1 200 = strTake u2 200 → strTake a1 200 = strTake a2 200 →
        generate_conversation_fingerprint hash m1 = generate_conversation_fingerprint hash m2) ∧
    (∀ (hash : String → String) (msgs : List Msg),
        (firstContent "user" msgs = none ∨ firstContent "assistant" msgs = none ∨
          firstContent "user" msgs = some "" ∨ firstContent "assistant" msgs = some "") →
        generate_conversation_fingerprint hash msgs = none) := by
  constructor
  · intro hash m1 m2 u1 u2 a1 a2 hu1 hu2 ha1 ha2 htu hta
    rw [gcf_firsts, gcf_firsts, hu1, hu2, ha1, ha2]
    have hu_iff : (u1 = "") ↔ (u2 = "") := by
      rw [← strTake_200_empty u1, ← strTake_200_empty u2, htu]
    have ha_iff : (a1 = "") ↔ (a2 = "") := by
      rw [← strTake_200_empty a1, ← strTake_200_empty a2, hta]
    by_cases h1 : u1 = ""
    · have h2 : u2 = "" := hu_iff.mp h1
      simp [truthyOpt, h1, h2]
    · have h2 : ¬(u2 = "") := fun hh => h1 (hu_iff.mpr hh)
      by_cases h3 : a1 = ""
      · have h4 : a2 = "" := ha_iff.mp h3
        simp [truthyOpt, h3, h4]
      · have h4 : ¬(a2 = "") := fun hh => h3 (ha_iff.mpr hh)
        simp [truthyOpt, h1, h2, h3, h4, htu, hta]
  · intro hash msgs h
    rw [gcf_firsts]
    rcases h with h | h | h | h <;> simp [h, truthyOpt]

/-- Claim C10, witness: appending a later message does not change the
fingerprint, and a conversation with no assistant message has none. -/
theorem C10_fingerprint_prefix_dependence_witness :
    generate_conversation_fingerprint (fun s => s)
        [⟨"user", "hi"⟩, ⟨"assistant", "lo"⟩]
      = generate_conversation_fingerprint (fun s => s)
          [⟨"user", "hi"⟩, ⟨"assistant", "lo"⟩, ⟨"user", "extra"⟩] ∧
    generate_conversation_fingerprint (fun s => s) [⟨"user", "hi"⟩] = none :=
  ⟨C10_fingerprint_prefix_dependence.1 (fun s => s)
      [⟨"user", "hi"⟩, ⟨"assistant", "lo"⟩]
      [⟨"user", "hi"⟩, ⟨"assistant", "lo"⟩, ⟨"user", "extra"⟩]
      "hi" "hi" "lo" "lo" (by decide) (by decide) (by decide) (by decide) rfl rfl,
   C10_fingerprint_prefix_dependence.2 (fun s => s) [⟨"user", "hi"⟩]
      (Or.inr (Or.inl (by decide)))⟩
